import Mathlib

/-!
Verification of the replication expression node of src/Eigen/src/Array/Replicate.h,
a tiled-replication view over a matrix/vector in a lazy expression-template library.

Modelling conventions (shallow embedding):
* C++ int sizes, indices and factors are modelled as Nat (all claims concern the
  nonnegative in-range regime; the preconditions of the source require 0 <= row).
* A compile-time template argument that is either a fixed integer or the Dynamic
  marker is the inductive CTDim.
* An expression (source matrix or nested node) is a shape plus a coefficient
  accessor returning Option: none models an out-of-range access, which the source
  treats as a contract violation / undefined behavior.
* The constructor that can fail its runtime assertion returns Option.
-/

namespace EigenReplicate

/-- A compile-time dimension or replication factor: either a fixed integer or the
library-wide Dynamic marker (the source tests RowFactor==Dynamic etc.). -/
inductive CTDim where
| fixed (n : Nat)
| dynamic
deriving DecidableEq, Repr

/-- A matrix/vector expression as the replication node consumes it: row and column
counts and a per-element read accessor; the accessor yields none outside the valid
index range, modelling the contract violation of an out-of-range coeff access. -/
structure MatrixExpr (α : Type) where
rows : Nat
cols : Nat
coeff : Nat → Nat → Option α

/-- Build a plain source matrix of shape R by C from an entry function, with the
in-range contract made explicit: access outside the range is none. -/
def matrixOf (α : Type) (R C : Nat) (f : Nat → Nat → α) : MatrixExpr α :=
⟨R, C, fun r c => if r < R ∧ c < C then some (f r c) else none⟩

/-- Modelled from the spec: the helper ei_int_if_dynamic (defined outside this
excerpt) stores a runtime value only when the compile-time parameter is the
dynamic marker; its value() returns the compile-time constant otherwise. -/
def int_if_dynamic_value (param : CTDim) (v : Nat) : Nat :=
match param with
| CTDim.fixed n => n
| CTDim.dynamic => v

/-- The Replicate expression node: the compile-time factors RowFactor and
ColFactor (template arguments), the captured source expression m_matrix, and the
stored factor members m_rowFactor / m_colFactor (already resolved through
ei_int_if_dynamic, so the field holds what value() returns). -/
structure Replicate (α : Type) where
RowFactor : CTDim
ColFactor : CTDim
m_matrix : MatrixExpr α
m_rowFactor : Nat
m_colFactor : Nat

/-- The fixed-factor constructor Replicate(const OriginalMatrixType&): it runs
ei_assert(RowFactor!=Dynamic && ColFactor!=Dynamic), so construction fails (none)
when either compile-time factor is the dynamic marker. -/
def Replicate.mkFixed (rowF colF : CTDim) (matrix : MatrixExpr α) :
    Option (Replicate α) :=
match rowF, colF with
| CTDim.fixed r, CTDim.fixed c =>
    some ⟨CTDim.fixed r, CTDim.fixed c, matrix, r, c⟩
| _, _ => none

/-- The runtime-factor constructor Replicate(const OriginalMatrixType&, int, int):
stores the given factors through ei_int_if_dynamic. -/
def Replicate.mkRuntime (rowF colF : CTDim) (matrix : MatrixExpr α)
    (rowFactor colFactor : Nat) : Replicate α :=
⟨rowF, colF, matrix, int_if_dynamic_value rowF rowFactor,
  int_if_dynamic_value colF colFactor⟩

/-- rows(): m_matrix.rows() * m_rowFactor.value(). -/
def Replicate.rows (rep : Replicate α) : Nat :=
rep.m_matrix.rows * rep.m_rowFactor

/-- cols(): m_matrix.cols() * m_colFactor.value(). -/
def Replicate.cols (rep : Replicate α) : Nat :=
rep.m_matrix.cols * rep.m_colFactor

/-- coeff(row, col), exactly as in the source: the RowFactor==1 fast path reads
m_matrix.coeff(m_matrix.rows(), col % m_matrix.cols()); the ColFactor==1 fast
path reads m_matrix.coeff(row % m_matrix.rows(), m_matrix.cols()); the general
branch applies both moduli. -/
def Replicate.coeff (rep : Replicate α) (row col : Nat) : Option α :=
if rep.RowFactor = CTDim.fixed 1 then
  rep.m_matrix.coeff rep.m_matrix.rows (col % rep.m_matrix.cols)
else if rep.ColFactor = CTDim.fixed 1 then
  rep.m_matrix.coeff (row % rep.m_matrix.rows) rep.m_matrix.cols
else
  rep.m_matrix.coeff (row % rep.m_matrix.rows) (col % rep.m_matrix.cols)

/-- The general-case semantics of coeff (the final else branch of the source):
both moduli applied, reading the source at (row mod rows, col mod cols). -/
def Replicate.coeffGeneral (rep : Replicate α) (row col : Nat) : Option α :=
rep.m_matrix.coeff (row % rep.m_matrix.rows) (col % rep.m_matrix.cols)

/-- View a replication node itself as an expression, so it can be the source of a
further replication (nested expression templates). -/
def Replicate.toExpr (rep : Replicate α) : MatrixExpr α :=
⟨rep.rows, rep.cols, rep.coeff⟩

/-- The runtime-factor factory DenseBase::replicate(int rowFactor, int colFactor):
builds Replicate with both compile-time factors Dynamic. -/
def DenseBase.replicateRuntime (matrix : MatrixExpr α) (rowFactor colFactor : Nat) :
    Replicate α :=
Replicate.mkRuntime CTDim.dynamic CTDim.dynamic matrix rowFactor colFactor

/-- The compile-time-factor factory DenseBase::replicate<RowFactor,ColFactor>():
builds Replicate through the fixed-factor constructor. -/
def DenseBase.replicateFixed (rowF colF : CTDim) (matrix : MatrixExpr α) :
    Option (Replicate α) :=
Replicate.mkFixed rowF colF matrix

/-- The replication direction of VectorwiseOp. -/
inductive Direction where
| Vertical
| Horizontal
deriving DecidableEq, Repr

/-- The single-axis factory VectorwiseOp::replicate(int factor): compile-time
factors (Direction==Vertical ? Dynamic : 1, Direction==Horizontal ? Dynamic : 1)
and runtime factors (Direction==Vertical ? factor : 1,
Direction==Horizontal ? factor : 1). -/
def VectorwiseOp.replicate (dir : Direction) (expr : MatrixExpr α) (factor : Nat) :
    Replicate α :=
Replicate.mkRuntime
  (if dir = Direction.Vertical then CTDim.dynamic else CTDim.fixed 1)
  (if dir = Direction.Horizontal then CTDim.dynamic else CTDim.fixed 1)
  expr
  (if dir = Direction.Vertical then factor else 1)
  (if dir = Direction.Horizontal then factor else 1)

/-- The compile-time descriptor of a source expression as consumed by
ei_traits<Replicate>: compile-time shape, capability flags, per-element cost. -/
structure SourceTraits where
RowsAtCompileTime : CTDim
ColsAtCompileTime : CTDim
Flags : Nat
CoeffReadCost : Nat

/-- Modelled from the spec: the library-wide constant HereditaryBits (defined
outside this excerpt) is the fixed subset of capability flags safe to inherit
under replication; it is modelled as the mask of the three hereditary bits
(bits 0, 1 and 2 of the flags word). -/
def HereditaryBits : Nat := 7

/-- The compile-time product used by ei_traits<Replicate>: Dynamic if either
operand is Dynamic, else the product of the fixed values (Factor==Dynamic ||
Rows==Dynamic ? Dynamic : Factor * Rows). -/
def ctimes : CTDim → CTDim → CTDim
| CTDim.dynamic, _ => CTDim.dynamic
| CTDim.fixed _, CTDim.dynamic => CTDim.dynamic
| CTDim.fixed f, CTDim.fixed n => CTDim.fixed (f * n)

/-- The resulting descriptor of ei_traits<Replicate<MatrixType,RowFactor,ColFactor>>:
compile-time shape from ctimes, Flags = source flags masked by HereditaryBits,
CoeffReadCost inherited unchanged. -/
def replicateTraits (rowF colF : CTDim) (src : SourceTraits) : SourceTraits :=
{ RowsAtCompileTime := ctimes rowF src.RowsAtCompileTime
  ColsAtCompileTime := ctimes colF src.ColsAtCompileTime
  Flags := src.Flags &&& HereditaryBits
  CoeffReadCost := src.CoeffReadCost }

/-- The 2 by 2 example matrix [[1,2],[3,4]] of the spec scenario. -/
def M22 : MatrixExpr Int := matrixOf Int 2 2 (fun r c => Int.ofNat (2 * r + c + 1))

/-- The 1 by 3 row vector [5,6,7] of the spec scenario. -/
def V13 : MatrixExpr Int := matrixOf Int 1 3 (fun _ c => Int.ofNat (5 + c))

/-- A sample source descriptor used to instantiate the trait theorems. -/
def srcEx : SourceTraits := ⟨CTDim.fixed 4, CTDim.fixed 5, 11, 3⟩

/-- Two observationally equal nodes built with different (ignored) runtime
arguments for the fixed compile-time factors. -/
def repA : Replicate Int := Replicate.mkRuntime (CTDim.fixed 2) (CTDim.fixed 3) M22 7 9

/-- The same captured state as repA, reached through other constructor inputs. -/
def repB : Replicate Int := Replicate.mkRuntime (CTDim.fixed 2) (CTDim.fixed 3) M22 2 3

theorem ctimes_eq_dynamic_left (y : CTDim) : ctimes CTDim.dynamic y = CTDim.dynamic :=
rfl

theorem ctimes_eq_dynamic_right (x : CTDim) : ctimes x CTDim.dynamic = CTDim.dynamic := by
cases x <;> rfl

theorem ctimes_fixed (f n : Nat) :
    ctimes (CTDim.fixed f) (CTDim.fixed n) = CTDim.fixed (f * n) :=
rfl

/-- The general branch of coeff (taken whenever neither compile-time factor is the
literal 1, in particular for every node built by the runtime factory) does meet
the spec contract: it reads the source at (row mod rows, col mod cols). -/
theorem replicate_coeff_general_contract (α : Type) (M : MatrixExpr α)
    (rf cf row col : Nat) :
    (DenseBase.replicateRuntime M rf cf).coeff row col
      = M.coeff (row % M.rows) (col % M.cols) := by
simp [DenseBase.replicateRuntime, Replicate.mkRuntime, Replicate.coeff,
  int_if_dynamic_value]

/-- The claim C1 fails on the code: the RowFactor==1 fast path of coeff reads the
source at row index m_matrix.rows(), which is out of range, instead of at the row
itself. For the node over the 2 by 2 matrix [[1,2],[3,4]] with compile-time
factors (1, 3), coeff(0,0) is a contract violation (none) while the claimed value
is the source element at (0 mod 2, 0 mod 2), namely 1. -/
theorem replicate_coeff_rowfactor_one_out_of_range :
    (Replicate.mkFixed (CTDim.fixed 1) (CTDim.fixed 3) M22).map
        (fun rep => rep.coeff 0 0) = some none
    ∧ M22.coeff (0 % 2) (0 % 2) = some 1 := by
decide

/-- The claim C2 fails on the code: replicating with compile-time factors (1, 1)
takes the RowFactor==1 fast path, whose out-of-range source read makes coeff(0,0)
a contract violation (none) instead of the identity value M22(0,0) = 1. -/
theorem replicate_one_one_not_identity :
    (Replicate.mkFixed (CTDim.fixed 1) (CTDim.fixed 1) M22).map
        (fun rep => rep.coeff 0 0) = some none
    ∧ M22.coeff 0 0 = some 1 := by
decide

/-- The claim C3: for positive factors the node has rf * R rows and cf * C
columns, through both the runtime-factor factory and the fixed-factor
constructor. -/
theorem replicate_rows_cols (α : Type) (M : MatrixExpr α) (rf cf : Nat)
    (hrf : 0 < rf) (hcf : 0 < cf) :
    (DenseBase.replicateRuntime M rf cf).rows = rf * M.rows ∧
    (DenseBase.replicateRuntime M rf cf).cols = cf * M.cols ∧
    (DenseBase.replicateFixed (CTDim.fixed rf) (CTDim.fixed cf) M).map Replicate.rows
      = some (rf * M.rows) ∧
    (DenseBase.replicateFixed (CTDim.fixed rf) (CTDim.fixed cf) M).map Replicate.cols
      = some (cf * M.cols) := by
refine ⟨?_, ?_, ?_, ?_⟩ <;>
  simp [DenseBase.replicateRuntime, DenseBase.replicateFixed, Replicate.mkRuntime,
    Replicate.mkFixed, Replicate.rows, Replicate.cols, int_if_dynamic_value,
    Nat.mul_comm]

/-- Concrete instance of the shape theorem for C3. -/
theorem replicate_rows_cols_witness :
    (DenseBase.replicateRuntime M22 2 3).rows = 2 * M22.rows ∧
    (DenseBase.replicateRuntime M22 2 3).cols = 3 * M22.cols ∧
    (DenseBase.replicateFixed (CTDim.fixed 2) (CTDim.fixed 3) M22).map Replicate.rows
      = some (2 * M22.rows) ∧
    (DenseBase.replicateFixed (CTDim.fixed 2) (CTDim.fixed 3) M22).map Replicate.cols
      = some (3 * M22.cols) :=
replicate_rows_cols Int M22 2 3 (by decide) (by decide)

/-- The claim C4 fails on the code: both fast paths of coeff disagree with the
general case. At index (1,1) over the 2 by 2 matrix, the RowFactor==1 node and
the ColFactor==1 node each return a contract violation (none), while applying
both moduli to the same captured state yields the source element 4. -/
theorem replicate_fast_paths_differ_from_general :
    (Replicate.mkFixed (CTDim.fixed 1) (CTDim.fixed 3) M22).map
        (fun rep => rep.coeff 1 1) = some none ∧
    (Replicate.mkFixed (CTDim.fixed 1) (CTDim.fixed 3) M22).map
        (fun rep => rep.coeffGeneral 1 1) = some (some 4) ∧
    (Replicate.mkFixed (CTDim.fixed 3) (CTDim.fixed 1) M22).map
        (fun rep => rep.coeff 1 1) = some none ∧
    (Replicate.mkFixed (CTDim.fixed 3) (CTDim.fixed 1) M22).map
        (fun rep => rep.coeffGeneral 1 1) = some (some 4) := by
decide

/-- The claim C5: the fixed-factor constructor fails exactly when a compile-time
factor is the dynamic marker, and succeeds whenever both are non-dynamic. -/
theorem replicate_fixed_ctor_dynamic_assert (α : Type) (M : MatrixExpr α)
    (rowF colF : CTDim) :
    (Replicate.mkFixed rowF colF M = none
      ↔ rowF = CTDim.dynamic ∨ colF = CTDim.dynamic) ∧
    ((Replicate.mkFixed rowF colF M).isSome
      ↔ rowF ≠ CTDim.dynamic ∧ colF ≠ CTDim.dynamic) := by
cases rowF <;> cases colF <;> simp [Replicate.mkFixed]

/-- The claim C6: the trait rule yields a dynamic compile-time count when the
factor or the source count is dynamic, and the product of the fixed values
otherwise, for rows and for columns. -/
theorem replicate_traits_shape (rowF colF : CTDim) (src : SourceTraits) :
    ((rowF = CTDim.dynamic ∨ src.RowsAtCompileTime = CTDim.dynamic) →
      (replicateTraits rowF colF src).RowsAtCompileTime = CTDim.dynamic) ∧
    (∀ f n, rowF = CTDim.fixed f → src.RowsAtCompileTime = CTDim.fixed n →
      (replicateTraits rowF colF src).RowsAtCompileTime = CTDim.fixed (f * n)) ∧
    ((colF = CTDim.dynamic ∨ src.ColsAtCompileTime = CTDim.dynamic) →
      (replicateTraits rowF colF src).ColsAtCompileTime = CTDim.dynamic) ∧
    (∀ f n, colF = CTDim.fixed f → src.ColsAtCompileTime = CTDim.fixed n →
      (replicateTraits rowF colF src).ColsAtCompileTime = CTDim.fixed (f * n)) := by
refine ⟨?_, ?_, ?_, ?_⟩
· rintro (h | h) <;>
    simp [replicateTraits, h, ctimes_eq_dynamic_left, ctimes_eq_dynamic_right]
· intro f n hf hn
  simp [replicateTraits, hf, hn, ctimes_fixed]
· rintro (h | h) <;>
    simp [replicateTraits, h, ctimes_eq_dynamic_left, ctimes_eq_dynamic_right]
· intro f n hf hn
  simp [replicateTraits, hf, hn, ctimes_fixed]

/-- Concrete instance of the trait shape rule for C6. -/
theorem replicate_traits_shape_witness :
    (replicateTraits CTDim.dynamic (CTDim.fixed 3) srcEx).RowsAtCompileTime
      = CTDim.dynamic ∧
    (replicateTraits (CTDim.fixed 2) (CTDim.fixed 3) srcEx).RowsAtCompileTime
      = CTDim.fixed (2 * 4) ∧
    (replicateTraits (CTDim.fixed 2) CTDim.dynamic srcEx).ColsAtCompileTime
      = CTDim.dynamic ∧
    (replicateTraits (CTDim.fixed 2) (CTDim.fixed 3) srcEx).ColsAtCompileTime
      = CTDim.fixed (3 * 5) :=
⟨(replicate_traits_shape CTDim.dynamic (CTDim.fixed 3) srcEx).1 (Or.inl rfl),
 (replicate_traits_shape (CTDim.fixed 2) (CTDim.fixed 3) srcEx).2.1 2 4 rfl rfl,
 (replicate_traits_shape (CTDim.fixed 2) CTDim.dynamic srcEx).2.2.1 (Or.inl rfl),
 (replicate_traits_shape (CTDim.fixed 2) (CTDim.fixed 3) srcEx).2.2.2 3 5 rfl rfl⟩

/-- The claim C7: the node Flags equal the source flags masked by HereditaryBits,
every set bit of the result is a set source bit and a hereditary bit (no other
flag is ever set), and the per-element cost is inherited unchanged. -/
theorem replicate_traits_flags_cost (rowF colF : CTDim) (src : SourceTraits) :
    (replicateTraits rowF colF src).Flags = src.Flags &&& HereditaryBits ∧
    (∀ i, ((replicateTraits rowF colF src).Flags).testBit i →
      src.Flags.testBit i ∧ HereditaryBits.testBit i) ∧
    (replicateTraits rowF colF src).CoeffReadCost = src.CoeffReadCost := by
refine ⟨rfl, ?_, rfl⟩
intro i hi
have h : (src.Flags &&& HereditaryBits).testBit i = true := hi
rw [Nat.testBit_land, Bool.and_eq_true] at h
exact h

/-- Concrete instance of the flag and cost propagation for C7. -/
theorem replicate_traits_flags_cost_witness :
    (replicateTraits CTDim.dynamic CTDim.dynamic srcEx).Flags
      = srcEx.Flags &&& HereditaryBits ∧
    (srcEx.Flags.testBit 0 ∧ HereditaryBits.testBit 0) ∧
    (replicateTraits CTDim.dynamic CTDim.dynamic srcEx).CoeffReadCost
      = srcEx.CoeffReadCost :=
⟨(replicate_traits_flags_cost CTDim.dynamic CTDim.dynamic srcEx).1,
 (replicate_traits_flags_cost CTDim.dynamic CTDim.dynamic srcEx).2.1 0 (by decide),
 (replicate_traits_flags_cost CTDim.dynamic CTDim.dynamic srcEx).2.2⟩

/-- The claim C8: replicating an already-replicated view by (rf2, cf2) after
(rf1, cf1) (runtime-factor factory, as nested tiling is built) agrees at every
valid index with a single replication by (rf1 * rf2, cf1 * cf2). -/
theorem replicate_replicate_eq_product (α : Type) (M : MatrixExpr α)
    (rf1 cf1 rf2 cf2 : Nat) (h1 : 0 < rf1) (h2 : 0 < cf1) (h3 : 0 < rf2)
    (h4 : 0 < cf2) (row col : Nat)
    (hr : row < (DenseBase.replicateRuntime
        (DenseBase.replicateRuntime M rf1 cf1).toExpr rf2 cf2).rows)
    (hc : col < (DenseBase.replicateRuntime
        (DenseBase.replicateRuntime M rf1 cf1).toExpr rf2 cf2).cols) :
    (DenseBase.replicateRuntime (DenseBase.replicateRuntime M rf1 cf1).toExpr
        rf2 cf2).coeff row col
      = (DenseBase.replicateRuntime M (rf1 * rf2) (cf1 * cf2)).coeff row col := by
simp only [DenseBase.replicateRuntime, Replicate.mkRuntime, Replicate.coeff,
  Replicate.toExpr, Replicate.rows, Replicate.cols, int_if_dynamic_value]
simp only [reduceCtorEq, if_false]
rw [Nat.mod_mod_of_dvd row (dvd_mul_right M.rows rf1),
  Nat.mod_mod_of_dvd col (dvd_mul_right M.cols cf1)]

/-- Concrete instance of the tiling composition for C8. -/
theorem replicate_replicate_eq_product_witness :
    (DenseBase.replicateRuntime (DenseBase.replicateRuntime M22 2 3).toExpr
        2 2).coeff 5 7
      = (DenseBase.replicateRuntime M22 (2 * 2) (3 * 2)).coeff 5 7 :=
replicate_replicate_eq_product Int M22 2 3 2 2 (by decide) (by decide) (by decide)
  (by decide) 5 7 (by decide) (by decide)

/-- The claim C9 fails on the code: the vertical single-axis replicate of the
1 by 3 row vector [5,6,7] by factor 4 builds a node with compile-time factors
(Dynamic, 1); its shape is 4 by 3 as claimed, but coeff takes the ColFactor==1
fast path, which reads the source at column index m_matrix.cols() = 3 (out of
range), so element (0,0) is a contract violation (none) instead of 5. -/
theorem vectorwise_replicate_out_of_range :
    (VectorwiseOp.replicate Direction.Vertical V13 4).rows = 4 ∧
    (VectorwiseOp.replicate Direction.Vertical V13 4).cols = 3 ∧
    (VectorwiseOp.replicate Direction.Vertical V13 4).coeff 0 0 = none ∧
    V13.coeff 0 0 = some 5 := by
decide

/-- The claim C10: every observation of a node (coeff, rows, cols) is a pure
function of its captured state; two nodes whose captured fields agree
observationally return equal values, and no other input influences the result. -/
theorem replicate_observations_deterministic (α : Type) (rep₁ rep₂ : Replicate α)
    (row col : Nat)
    (hRF : rep₁.RowFactor = rep₂.RowFactor) (hCF : rep₁.ColFactor = rep₂.ColFactor)
    (hrf : rep₁.m_rowFactor = rep₂.m_rowFactor)
    (hcf : rep₁.m_colFactor = rep₂.m_colFactor)
    (hR : rep₁.m_matrix.rows = rep₂.m_matrix.rows)
    (hC : rep₁.m_matrix.cols = rep₂.m_matrix.cols)
    (hM : ∀ r c, rep₁.m_matrix.coeff r c = rep₂.m_matrix.coeff r c) :
    rep₁.coeff row col = rep₂.coeff row col ∧ rep₁.rows = rep₂.rows ∧
      rep₁.cols = rep₂.cols := by
refine ⟨?_, ?_, ?_⟩
· simp only [Replicate.coeff, hRF, hCF, hR, hC]
  split_ifs <;> exact hM _ _
· simp only [Replicate.rows, hR, hrf]
· simp only [Replicate.cols, hC, hcf]

/-- Concrete instance of the determinism property for C10: the two nodes were
built with different constructor inputs but capture the same state. -/
theorem replicate_observations_deterministic_witness :
    repA.coeff 3 4 = repB.coeff 3 4 ∧ repA.rows = repB.rows ∧
      repA.cols = repB.cols :=
replicate_observations_deterministic Int repA repB 3 4 rfl rfl rfl rfl rfl rfl
  (fun _ _ => rfl)

end EigenReplicate
